import Mathlib

/-!
Verification of the game-logic core of snake_game.py (a single-file
Pygame snake game).  The definitions below are a shallow embedding of the
source: pure helper functions are translated directly; the body of the
main while-loop of game_loop is split into event processing (process_key,
process_events) and the per-frame update (tick).  Wall-clock readings
(time.time) and the random draws consumed by create_food / create_powerup
are passed in explicitly; grid coordinates are Int because the head of
the snake can leave the grid (head_x -= 1 at x = 0).
-/

namespace SnakeGame

/-! ### Constants (src lines 17-38) -/

def SCREEN_WIDTH : Int := 800
def SCREEN_HEIGHT : Int := 600
def GRID_SIZE : Int := 20
def GRID_WIDTH : Int := SCREEN_WIDTH / GRID_SIZE
def GRID_HEIGHT : Int := SCREEN_HEIGHT / GRID_SIZE

def SNAKE_SPEED_NORMAL : Int := 10
def SNAKE_SPEED_BOOST : Int := 20

def POWERUP_DURATION : Int := 5
def POWERUP_SPAWN_INTERVAL : Int := 20

/-- A grid cell, the (x, y) integer pair of the source. -/
abbrev Cell : Type := Int × Int

/-- The four direction strings of the source. -/
inductive Dir : Type
  | UP
  | DOWN
  | LEFT
  | RIGHT
deriving DecidableEq, Repr

/-- The exact opposite of a direction (the reversal that the event
handler rejects). -/
def Dir.opposite : Dir → Dir
  | Dir.UP => Dir.DOWN
  | Dir.DOWN => Dir.UP
  | Dir.LEFT => Dir.RIGHT
  | Dir.RIGHT => Dir.LEFT

/-- Session status: Running while the inner loop keeps ticking, GameOver
once check_collision fires (src line 244). -/
inductive Status : Type
  | Running
  | GameOver
deriving DecidableEq, Repr

/-! ### High-score persistence (src lines 48-59)

The file system is made explicit: an Option String is the readable
content of highscore.txt (none models an IOError on open / read), and
the semantics of the Python int() constructor on a string is modelled by
parse_py_int (whitespace stripping, optional sign, decimal digits;
returning none models a ValueError).  The underscore-separator feature
of Python integer literals is not modelled; no claim depends on it. -/

/-- ASCII whitespace stripped by the Python int() constructor. -/
def is_py_space (c : Char) : Bool :=
  c.toNat = 32 || c.toNat = 9 || c.toNat = 10 || c.toNat = 13 ||
    c.toNat = 11 || c.toNat = 12

/-- A non-empty all-digit character list parsed as a decimal Nat. -/
def parse_digits (cs : List Char) : Option Nat :=
  if cs ≠ [] ∧ cs.all (fun c => c.isDigit) then
    some (cs.foldl (fun a c => a * 10 + (c.toNat - 48)) 0)
  else
    none

/-- Python int(s) on a string: strip whitespace, optional sign (codes 45
and 43), decimal digits; none models a ValueError. -/
def parse_py_int (s : String) : Option Int :=
  let t := ((s.data.dropWhile is_py_space).reverse.dropWhile is_py_space).reverse
  match t with
  | [] => none
  | c :: rest =>
    if c.toNat = 45 then Option.map (fun n => -(n : Int)) (parse_digits rest)
    else if c.toNat = 43 then Option.map (fun n => (n : Int)) (parse_digits rest)
    else Option.map (fun n => (n : Int)) (parse_digits (c :: rest))

/-- load_high_score (src lines 48-54): int(f.read()) guarded by an
except clause for IOError and ValueError that returns 0. -/
def load_high_score (file : Option String) : Int :=
  match file with
  | none => 0
  | some s =>
    match parse_py_int s with
    | none => 0
    | some n => n

/-- save_high_score (src lines 56-59): opens highscore.txt and writes.
There is no exception handler; io_ok says whether the write succeeds,
and a failure is raised (Except.error), exactly as the Python IOError
propagates. -/
def save_high_score (score : Int) (io_ok : Bool) : Except String Unit :=
  if io_ok then Except.ok () else Except.error ("IOError")

/-- The game-over high-score block of game_loop (src lines 244-247), in
the exception monad: high_score is set to score and save_high_score is
called; an exception raised by the save propagates out of game_loop.
The result is the in-memory high_score after the block. -/
def game_over_highscore (score : Nat) (high_score : Int) (io_ok : Bool) :
    Except String Int :=
  if (score : Int) > high_score then
    match save_high_score (score : Int) io_ok with
    | Except.ok _ => Except.ok (score : Int)
    | Except.error e => Except.error e
  else
    Except.ok high_score

/-! ### Game components (src lines 61-78) -/

/-- create_snake (src lines 62-64). -/
def create_snake : List Cell :=
  [(GRID_WIDTH / 2, GRID_HEIGHT / 2)]

/-- create_food (src lines 66-71): draw random in-range cells until one
outside snake_body appears.  The stream of random.randint draws is the
explicit list draws; the first draw not in the body is returned.  The
result none means no draw in the supplied stream escapes the body: the
while-loop of the source keeps drawing and does not return. -/
def create_food (draws : List Cell) (snake_body : List Cell) : Option Cell :=
  draws.find? (fun c => decide (c ∉ snake_body))

/-- create_powerup (src lines 73-78): identical loop to create_food. -/
def create_powerup (draws : List Cell) (snake_body : List Cell) : Option Cell :=
  draws.find? (fun c => decide (c ∉ snake_body))

/-- Every cell of the grid, the exact range of the random.randint pair
(0 .. GRID_WIDTH - 1, 0 .. GRID_HEIGHT - 1). -/
def all_cells : List Cell :=
  (List.range GRID_WIDTH.toNat).flatMap
    (fun x => (List.range GRID_HEIGHT.toNat).map (fun y => ((x : Int), (y : Int))))

/-! ### Game logic (src lines 115-139) -/

/-- The new head computed by move_snake (src lines 118-127): the current
head offset one unit in the given direction. -/
def next_head (c : Cell) (direction : Dir) : Cell :=
  match direction with
  | Dir.UP => (c.1, c.2 - 1)
  | Dir.DOWN => (c.1, c.2 + 1)
  | Dir.LEFT => (c.1 - 1, c.2)
  | Dir.RIGHT => (c.1 + 1, c.2)

/-- move_snake (src lines 116-129): insert the new head at the front.
The empty case is unreachable (the snake is strictly non-empty; the
Python indexing snake_body[0] would raise there). -/
def move_snake (snake_body : List Cell) (direction : Dir) : List Cell :=
  match snake_body with
  | [] => []
  | c :: rest => next_head c direction :: c :: rest

/-- check_collision (src lines 131-139): head out of bounds, or head
equal to a segment of snake_body[1:].  The empty case is unreachable. -/
def check_collision (snake_body : List Cell) : Bool :=
  match snake_body with
  | [] => false
  | head :: rest =>
    if head.1 < 0 ∨ head.1 ≥ GRID_WIDTH ∨ head.2 < 0 ∨ head.2 ≥ GRID_HEIGHT then
      true
    else if head ∈ rest then
      true
    else
      false

/-! ### Session state and the per-frame update -/

/-- The mutable locals of game_loop (src lines 181-193) that the inner
while-loop reads and writes, plus the Running / GameOver status that the
game-over branch of the source realises by game_over_screen. -/
structure GameState : Type where
  snake_body : List Cell
  food_pos : Cell
  powerup_pos : Option Cell
  direction : Dir
  score : Nat
  high_score : Int
  paused : Bool
  speed : Int
  powerup_active : Bool
  powerup_timer : Int
  last_powerup_spawn : Int
  status : Status
deriving DecidableEq, Repr

/-- Power-up collision block (src lines 227-231): the quadruple (speed,
powerup_active, powerup_timer, powerup_pos) after the check. -/
def step_powerup (s : GameState) (new_head : Cell) (now : Int) :
    Int × Bool × Int × Option Cell :=
  match s.powerup_pos with
  | some p =>
    if new_head = p then (SNAKE_SPEED_BOOST, true, now, none)
    else (s.speed, s.powerup_active, s.powerup_timer, s.powerup_pos)
  | none => (s.speed, s.powerup_active, s.powerup_timer, s.powerup_pos)

/-- Power-up timer block (src lines 234-236): the pair (speed,
powerup_active) after the expiry check. -/
def step_expiry (speed : Int) (active : Bool) (timer now : Int) : Int × Bool :=
  if active = true ∧ now - timer > POWERUP_DURATION then
    (SNAKE_SPEED_NORMAL, false)
  else
    (speed, active)

/-- One pass of the body of the inner while-loop of game_loop after
event handling and the paused check (src lines 216-253).  now is the
wall-clock reading of this frame; food_draws and powerup_draws are the
random streams consumed by create_food and create_powerup.  The Bool of
the result records whether save_high_score was called.  The result none
means an unreachable state (empty snake) or a placement loop that never
returns a cell from the supplied draws. -/
def tick (s : GameState) (now : Int) (food_draws powerup_draws : List Cell) :
    Option (GameState × Bool) :=
  match move_snake s.snake_body s.direction with
  | [] => none
  | new_head :: rest =>
    Option.bind
      (if new_head = s.food_pos then
         Option.map (fun f => (new_head :: rest, f, s.score + 1))
           (create_food food_draws (new_head :: rest))
       else
         some ((new_head :: rest).dropLast, s.food_pos, s.score))
      (fun t =>
        let body2 := t.1
        let food2 := t.2.1
        let score2 := t.2.2
        let ps := step_powerup s new_head now
        let se := step_expiry ps.1 ps.2.1 ps.2.2.1 now
        Option.bind
          (if now - s.last_powerup_spawn > POWERUP_SPAWN_INTERVAL ∧ ps.2.2.2 = none
           then
             Option.map (fun p => ((some p : Option Cell), now))
               (create_powerup powerup_draws body2)
           else
             some (ps.2.2.2, s.last_powerup_spawn))
          (fun u =>
            let base : GameState :=
              { snake_body := body2, food_pos := food2, powerup_pos := u.1,
                direction := s.direction, score := score2, high_score := s.high_score,
                paused := s.paused, speed := se.1, powerup_active := se.2,
                powerup_timer := ps.2.2.1, last_powerup_spawn := u.2,
                status := s.status }
            if check_collision body2 = true then
              if (score2 : Int) > s.high_score then
                some ({ base with high_score := (score2 : Int),
                                  status := Status.GameOver }, true)
              else
                some ({ base with status := Status.GameOver }, false)
            else
              some (base, false)))

/-! ### Event handling and the outer frame (src lines 195-214) -/

/-- The keys the event loop reacts to (src lines 199-210); every other
key leaves the state untouched, so only these are modelled. -/
inductive Key : Type
  | SPACE
  | UP
  | DOWN
  | LEFT
  | RIGHT
deriving DecidableEq, Repr

/-- The key a direction command arrives on. -/
def dir_key : Dir → Key
  | Dir.UP => Key.UP
  | Dir.DOWN => Key.DOWN
  | Dir.LEFT => Key.LEFT
  | Dir.RIGHT => Key.RIGHT

/-- One KEYDOWN event of the event loop (src lines 199-210): SPACE
toggles paused; when not paused, an arrow key stores its direction
unless it is the exact opposite of the stored one. -/
def process_key (s : GameState) (k : Key) : GameState :=
  match k with
  | Key.SPACE => { s with paused := !s.paused }
  | Key.UP =>
    if s.paused = false ∧ s.direction ≠ Dir.DOWN then
      { s with direction := Dir.UP }
    else s
  | Key.DOWN =>
    if s.paused = false ∧ s.direction ≠ Dir.UP then
      { s with direction := Dir.DOWN }
    else s
  | Key.LEFT =>
    if s.paused = false ∧ s.direction ≠ Dir.RIGHT then
      { s with direction := Dir.LEFT }
    else s
  | Key.RIGHT =>
    if s.paused = false ∧ s.direction ≠ Dir.LEFT then
      { s with direction := Dir.RIGHT }
    else s

/-- The whole event batch of one frame (the for-loop over
pygame.event.get(), src line 195), in arrival order. -/
def process_events (s : GameState) (keys : List Key) : GameState :=
  keys.foldl process_key s

/-- One full iteration of the inner while-loop (src lines 194-253):
process the event batch, then either skip the update entirely when
paused (the continue at src line 214) or run the per-frame update. -/
def frame (s : GameState) (keys : List Key) (now : Int)
    (food_draws powerup_draws : List Cell) : Option (GameState × Bool) :=
  let s1 := process_events s keys
  if s1.paused = true then some (s1, false)
  else tick s1 now food_draws powerup_draws

/-- The per-frame external inputs of one loop iteration: the key batch,
the wall-clock reading and the two random streams. -/
structure FrameInput : Type where
  keys : List Key
  now : Int
  food_draws : List Cell
  powerup_draws : List Cell
deriving DecidableEq, Repr

/-- A run of consecutive frames under the given per-frame inputs. -/
def run_frames (s : GameState) : List FrameInput → Option GameState
  | [] => some s
  | i :: rest =>
    match frame s i.keys i.now i.food_draws i.powerup_draws with
    | none => none
    | some (s1, _) => run_frames s1 rest

/-! ### Helper lemmas -/

lemma create_food_not_mem {draws body : List Cell} {c : Cell}
    (h : create_food draws body = some c) : c ∉ body := by
  have := List.find?_some h
  simpa using of_decide_eq_true this

lemma create_powerup_not_mem {draws body : List Cell} {c : Cell}
    (h : create_powerup draws body = some c) : c ∉ body := by
  have := List.find?_some h
  simpa using of_decide_eq_true this

lemma check_collision_cons (c : Cell) (tl : List Cell) :
    check_collision (c :: tl) = true ↔
      (c.1 < 0 ∨ c.1 ≥ GRID_WIDTH ∨ c.2 < 0 ∨ c.2 ≥ GRID_HEIGHT ∨ c ∈ tl) := by
  constructor
  · intro h
    simp only [check_collision] at h
    split_ifs at h with h1 h2
    · tauto
    · tauto
  · intro hdisj
    simp only [check_collision]
    split_ifs with h1 h2
    · rfl
    · rfl
    · push_neg at h1
      obtain ⟨n1, n2, n3, n4⟩ := h1
      rcases hdisj with h | h | h | h | h
      · omega
      · omega
      · omega
      · omega
      · exact absurd h h2

/-- Field-wise characterisation of a successful tick on a frame where
the new head lands on the food (the growth branch, src lines 220-222). -/
lemma tick_cases_eat (s : GameState) (now : Int) (fd pd : List Cell)
    (c : Cell) (tl : List Cell) (hbody : s.snake_body = c :: tl)
    (s' : GameState) (sv : Bool) (h : tick s now fd pd = some (s', sv))
    (heat : next_head c s.direction = s.food_pos) :
    s'.snake_body = next_head c s.direction :: c :: tl ∧
    s'.score = s.score + 1 ∧
    create_food fd (next_head c s.direction :: c :: tl) = some s'.food_pos ∧
    (s'.status = if check_collision s'.snake_body = true then Status.GameOver else s.status) ∧
    (s'.high_score = if check_collision s'.snake_body = true ∧ (s'.score : Int) > s.high_score
       then (s'.score : Int) else s.high_score) ∧
    (sv = true ↔ (check_collision s'.snake_body = true ∧ (s'.score : Int) > s.high_score)) := by
  unfold tick at h
  rw [hbody] at h
  simp only [move_snake] at h
  simp only [Option.bind_eq_some] at h
  obtain ⟨t, ht, u, hu, hfin⟩ := h
  rw [if_pos heat] at ht
  cases hcf : create_food fd (next_head c s.direction :: c :: tl) with
  | none =>
    rw [hcf] at ht
    exact absurd ht (by simp)
  | some f =>
    rw [hcf] at ht
    simp only [Option.map_some', Option.some.injEq] at ht
    subst ht
    dsimp only at hfin
    split at hfin
    · split at hfin
      · rename_i hcol hhs
        injection hfin with hfin
        injection hfin with h1 h2
        subst h2
        subst h1
        refine ⟨rfl, rfl, rfl, ?_, ?_, ?_⟩
        · simp [hcol]
        · simp [hcol]
          split_ifs with hh
          · omega
          · omega
        · simp [hcol]
          omega
      · rename_i hcol hhs
        injection hfin with hfin
        injection hfin with h1 h2
        subst h2
        subst h1
        refine ⟨rfl, rfl, rfl, ?_, ?_, ?_⟩
        · simp [hcol]
        · simp [hcol]
          split_ifs with hh
          · omega
          · omega
        · simp [hcol]
          omega
    · rename_i hcol
      injection hfin with hfin
      injection hfin with h1 h2
      subst h2
      subst h1
      refine ⟨rfl, rfl, rfl, ?_, ?_, ?_⟩
      · simp [hcol]
      · simp [hcol]
      · simp [hcol]

/-- Field-wise characterisation of a successful tick on a frame where
the new head misses the food (the tail-pop branch, src lines 223-224). -/
lemma tick_cases_noeat (s : GameState) (now : Int) (fd pd : List Cell)
    (c : Cell) (tl : List Cell) (hbody : s.snake_body = c :: tl)
    (s' : GameState) (sv : Bool) (h : tick s now fd pd = some (s', sv))
    (heat : next_head c s.direction ≠ s.food_pos) :
    s'.snake_body = (next_head c s.direction :: c :: tl).dropLast ∧
    s'.score = s.score ∧
    s'.food_pos = s.food_pos ∧
    (s'.status = if check_collision s'.snake_body = true then Status.GameOver else s.status) ∧
    (s'.high_score = if check_collision s'.snake_body = true ∧ (s'.score : Int) > s.high_score
       then (s'.score : Int) else s.high_score) ∧
    (sv = true ↔ (check_collision s'.snake_body = true ∧ (s'.score : Int) > s.high_score)) := by
  unfold tick at h
  rw [hbody] at h
  simp only [move_snake] at h
  simp only [Option.bind_eq_some] at h
  obtain ⟨t, ht, u, hu, hfin⟩ := h
  rw [if_neg heat] at ht
  simp only [Option.some.injEq] at ht
  subst ht
  dsimp only at hfin
  split at hfin
  · split at hfin
    · rename_i hcol hhs
      simp only [List.dropLast_cons₂] at hcol
      injection hfin with hfin
      injection hfin with h1 h2
      subst h2
      subst h1
      refine ⟨rfl, rfl, rfl, ?_, ?_, ?_⟩
      · simp [hcol]
      · simp [hcol]
        split_ifs with hh
        · omega
        · omega
      · simp [hcol]
        omega
    · rename_i hcol hhs
      simp only [List.dropLast_cons₂] at hcol
      injection hfin with hfin
      injection hfin with h1 h2
      subst h2
      subst h1
      refine ⟨rfl, rfl, rfl, ?_, ?_, ?_⟩
      · simp [hcol]
      · simp [hcol]
        split_ifs with hh
        · omega
        · omega
      · simp [hcol]
        omega
  · rename_i hcol
    simp only [List.dropLast_cons₂] at hcol
    injection hfin with hfin
    injection hfin with h1 h2
    subst h2
    subst h1
    refine ⟨rfl, rfl, rfl, ?_, ?_, ?_⟩
    · simp [hcol]
    · simp [hcol]
    · simp [hcol]

lemma process_key_paused_nonspace (s : GameState) (k : Key)
    (hp : s.paused = true) (hk : k ≠ Key.SPACE) : process_key s k = s := by
  cases k with
  | SPACE => exact absurd rfl hk
  | UP => simp [process_key, hp]
  | DOWN => simp [process_key, hp]
  | LEFT => simp [process_key, hp]
  | RIGHT => simp [process_key, hp]

lemma process_events_paused (s : GameState) (ks : List Key)
    (hp : s.paused = true) (hks : Key.SPACE ∉ ks) : process_events s ks = s := by
  induction ks with
  | nil => rfl
  | cons k rest ih =>
    have hk : k ≠ Key.SPACE := by
      intro he
      subst he
      exact hks (List.mem_cons_self _ _)
    simp only [process_events, List.foldl_cons]
    rw [process_key_paused_nonspace s k hp hk]
    exact ih (fun hm => hks (List.mem_cons_of_mem k hm))

lemma frame_paused (s : GameState) (keys : List Key) (now : Int) (fd pd : List Cell)
    (hp : s.paused = true) (hks : Key.SPACE ∉ keys) :
    frame s keys now fd pd = some (s, false) := by
  unfold frame
  rw [process_events_paused s keys hp hks]
  simp [hp]

lemma run_frames_paused (s : GameState) (inputs : List FrameInput)
    (hp : s.paused = true)
    (hks : ∀ i ∈ inputs, Key.SPACE ∉ i.keys) :
    run_frames s inputs = some s := by
  induction inputs with
  | nil => rfl
  | cons i rest ih =>
    have h1 : frame s i.keys i.now i.food_draws i.powerup_draws = some (s, false) :=
      frame_paused s i.keys i.now i.food_draws i.powerup_draws hp
        (hks i (List.mem_cons_self i rest))
    simp only [run_frames, h1]
    exact ih (fun j hj => hks j (List.mem_cons_of_mem i hj))

lemma gameover_iff_of_status (st : Status) (s' : GameState) (hd : Cell) (tlb : List Cell)
    (hb : s'.snake_body = hd :: tlb) (hrun : st = Status.Running)
    (hst : s'.status = if check_collision (hd :: tlb) = true then Status.GameOver else st) :
    (s'.status = Status.GameOver ↔
      ((s'.snake_body.headD (0, 0)).1 < 0 ∨ (s'.snake_body.headD (0, 0)).1 ≥ GRID_WIDTH ∨
       (s'.snake_body.headD (0, 0)).2 < 0 ∨ (s'.snake_body.headD (0, 0)).2 ≥ GRID_HEIGHT ∨
       s'.snake_body.headD (0, 0) ∈ s'.snake_body.tail)) := by
  subst hrun
  rw [hb]
  simp only [List.headD_cons, List.tail_cons]
  rw [hst]
  by_cases hcol : check_collision (hd :: tlb) = true
  · rw [if_pos hcol]
    constructor
    · intro _
      exact (check_collision_cons hd tlb).mp hcol
    · intro _
      rfl
  · rw [if_neg hcol]
    constructor
    · intro hgo
      exact absurd hgo (by decide)
    · intro hdisj
      exact absurd ((check_collision_cons hd tlb).mpr hdisj) hcol

/-! ### Concrete session states used by the witnesses -/

/-- A running 4-cell snake coiled so that moving UP sends the head into
the cell its own tail is about to vacate. -/
def ex_tail_chase : GameState :=
  { snake_body := [(5, 5), (4, 5), (4, 4), (5, 4)], food_pos := (0, 0),
    powerup_pos := none, direction := Dir.UP, score := 0, high_score := 0,
    paused := false, speed := 10, powerup_active := false, powerup_timer := 0,
    last_powerup_spawn := 0, status := Status.Running }

/-- The state after one tick of ex_tail_chase: the head took the freed
tail cell and the session keeps running. -/
def ex_tail_chase_post : GameState :=
  { ex_tail_chase with snake_body := [(5, 4), (5, 5), (4, 5), (4, 4)] }

/-- A running single-cell snake about to eat the food to its right. -/
def ex_eat : GameState :=
  { snake_body := [(20, 15)], food_pos := (21, 15), powerup_pos := none,
    direction := Dir.RIGHT, score := 0, high_score := 0, paused := false,
    speed := 10, powerup_active := false, powerup_timer := 0,
    last_powerup_spawn := 0, status := Status.Running }

/-- The state after one tick of ex_eat with food draw (0, 0): grown by
one, score 1, food relocated. -/
def ex_eat_post : GameState :=
  { ex_eat with snake_body := [(21, 15), (20, 15)], food_pos := (0, 0), score := 1 }

/-- A running snake one step from the right wall, with score 4 against
high score 3. -/
def ex_wall : GameState :=
  { snake_body := [(39, 15), (38, 15)], food_pos := (0, 0), powerup_pos := none,
    direction := Dir.RIGHT, score := 4, high_score := 3, paused := false,
    speed := 10, powerup_active := false, powerup_timer := 0,
    last_powerup_spawn := 0, status := Status.Running }

/-- The state after one tick of ex_wall: head out of bounds, game over,
high score raised to 4. -/
def ex_wall_post : GameState :=
  { ex_wall with
      snake_body := [(40, 15), (39, 15)],
      high_score := 4,
      status := Status.GameOver }

/-- ex_eat with the pause flag set. -/
def ex_paused : GameState :=
  { ex_eat with paused := true }

/-! ### Claim theorems -/

/-- C1: on every tick the session transitions to GameOver exactly when
the head of the post-move body (after the grow-or-shrink decision) is
out of bounds or equals some other segment of that post-move body; the
tail cell is removed before the check, so a non-growing snake entering
its just-vacated tail cell does not collide. -/
theorem tick_gameover_iff (s : GameState) (now : Int) (fd pd : List Cell)
    (s' : GameState) (sv : Bool) (c : Cell) (tl : List Cell)
    (hbody : s.snake_body = c :: tl) (hrun : s.status = Status.Running)
    (h : tick s now fd pd = some (s', sv)) :
    s'.status = Status.GameOver ↔
      ((s'.snake_body.headD (0, 0)).1 < 0 ∨
       (s'.snake_body.headD (0, 0)).1 ≥ GRID_WIDTH ∨
       (s'.snake_body.headD (0, 0)).2 < 0 ∨
       (s'.snake_body.headD (0, 0)).2 ≥ GRID_HEIGHT ∨
       s'.snake_body.headD (0, 0) ∈ s'.snake_body.tail) := by
  by_cases heat : next_head c s.direction = s.food_pos
  · obtain ⟨hb, -, -, hst, -, -⟩ := tick_cases_eat s now fd pd c tl hbody s' sv h heat
    rw [hb] at hst
    exact gameover_iff_of_status s.status s' _ _ hb hrun hst
  · obtain ⟨hb, -, -, hst, -, -⟩ := tick_cases_noeat s now fd pd c tl hbody s' sv h heat
    rw [List.dropLast_cons₂] at hb
    rw [hb] at hst
    exact gameover_iff_of_status s.status s' _ _ hb hrun hst

/-- C1 witness: the tail-chase tick is accepted by the theorem and shows
a head moving into the just-vacated tail cell is not game over. -/
theorem tick_gameover_iff_witness :
    ex_tail_chase_post.status = Status.GameOver ↔
      ((ex_tail_chase_post.snake_body.headD (0, 0)).1 < 0 ∨
       (ex_tail_chase_post.snake_body.headD (0, 0)).1 ≥ GRID_WIDTH ∨
       (ex_tail_chase_post.snake_body.headD (0, 0)).2 < 0 ∨
       (ex_tail_chase_post.snake_body.headD (0, 0)).2 ≥ GRID_HEIGHT ∨
       ex_tail_chase_post.snake_body.headD (0, 0) ∈ ex_tail_chase_post.snake_body.tail) :=
  tick_gameover_iff ex_tail_chase 0 [] [] ex_tail_chase_post false (5, 5)
    [(4, 5), (4, 4), (5, 4)] rfl rfl (by decide)

/-- C3: a tick in which the new head lands on the food grows the body by
exactly one cell, raises the score by exactly one and relocates the food
off the grown body; any other tick leaves body length, score and food
unchanged. -/
theorem tick_food_length_score (s : GameState) (now : Int) (fd pd : List Cell)
    (s' : GameState) (sv : Bool) (c : Cell) (tl : List Cell)
    (hbody : s.snake_body = c :: tl) (h : tick s now fd pd = some (s', sv)) :
    (next_head c s.direction = s.food_pos →
       s'.snake_body.length = s.snake_body.length + 1 ∧
       s'.score = s.score + 1 ∧
       s'.food_pos ∉ s'.snake_body ∧ s'.food_pos ≠ s.food_pos) ∧
    (next_head c s.direction ≠ s.food_pos →
       s'.snake_body.length = s.snake_body.length ∧
       s'.score = s.score ∧ s'.food_pos = s.food_pos) := by
  constructor
  · intro heat
    obtain ⟨hb, hsc, hcf, -, -, -⟩ := tick_cases_eat s now fd pd c tl hbody s' sv h heat
    have hnm : s'.food_pos ∉ next_head c s.direction :: c :: tl := create_food_not_mem hcf
    refine ⟨?_, hsc, ?_, ?_⟩
    · rw [hb, hbody]
      simp
    · rw [hb]
      exact hnm
    · intro heq
      apply hnm
      rw [heq, ← heat]
      exact List.mem_cons_self _ _
  · intro heat
    obtain ⟨hb, hsc, hf, -, -, -⟩ := tick_cases_noeat s now fd pd c tl hbody s' sv h heat
    refine ⟨?_, hsc, hf⟩
    rw [hb, hbody]
    simp

/-- C3 witness: the eating tick of ex_eat grows the snake to length 2,
sets score 1 and moves the food off the snake. -/
theorem tick_food_length_score_witness :
    ex_eat_post.snake_body.length = ex_eat.snake_body.length + 1 ∧
    ex_eat_post.score = ex_eat.score + 1 ∧
    ex_eat_post.food_pos ∉ ex_eat_post.snake_body ∧
    ex_eat_post.food_pos ≠ ex_eat.food_pos :=
  (tick_food_length_score ex_eat 0 [(0, 0)] [] ex_eat_post false (20, 15) []
      rfl (by decide)).1 (by decide)

/-- C7: every cell returned by create_food or create_powerup lies
outside the excluded snake body, and in particular the food placed by an
eating tick lies outside the full post-growth body. -/
theorem placement_avoids_excluded :
    (∀ draws body x, create_food draws body = some x → x ∉ body) ∧
    (∀ draws body x, create_powerup draws body = some x → x ∉ body) ∧
    (∀ (s : GameState) (now : Int) (fd pd : List Cell) (s' : GameState) (sv : Bool)
       (c : Cell) (tl : List Cell), s.snake_body = c :: tl →
       tick s now fd pd = some (s', sv) → next_head c s.direction = s.food_pos →
       s'.food_pos ∉ s'.snake_body) := by
  refine ⟨fun d b x hx => create_food_not_mem hx,
          fun d b x hx => create_powerup_not_mem hx, ?_⟩
  intro s now fd pd s' sv c tl hbody h heat
  obtain ⟨hb, -, hcf, -, -, -⟩ := tick_cases_eat s now fd pd c tl hbody s' sv h heat
  rw [hb]
  exact create_food_not_mem hcf

/-- C7 witness: the food placed by the eating tick of ex_eat is not on
the grown snake. -/
theorem placement_avoids_excluded_witness :
    ex_eat_post.food_pos ∉ ex_eat_post.snake_body :=
  placement_avoids_excluded.2.2 ex_eat 0 [(0, 0)] [] ex_eat_post false (20, 15) []
    rfl (by decide) (by decide)

/-- C2: on a board the snake covers completely, the placement loop of
create_food / create_powerup never returns, whatever random draws the
ambient generator produces: every in-range draw is in the body, so no
iteration of the while-loop exits, and no ExhaustedGrid condition is
ever signalled (the functions have no failure signal at all). -/
theorem create_full_grid_never_returns (draws : List Cell)
    (hdraws : ∀ x ∈ draws, x ∈ all_cells) :
    create_food draws all_cells = none ∧ create_powerup draws all_cells = none := by
  have hall : ∀ x ∈ draws, ¬(decide (x ∉ all_cells) = true) := by
    intro x hx hdec
    exact (of_decide_eq_true hdec) (hdraws x hx)
  exact ⟨List.find?_eq_none.mpr hall, List.find?_eq_none.mpr hall⟩

/-- C2 witness: with the draw stream producing (0, 0) the full-grid
placement still returns nothing. -/
theorem create_full_grid_never_returns_witness :
    create_food [((0 : Int), (0 : Int))] all_cells = none ∧
    create_powerup [((0 : Int), (0 : Int))] all_cells = none :=
  create_full_grid_never_returns [((0 : Int), (0 : Int))] (by decide)

/-- C4: when save_high_score fails at game-over (score 1 beating high
score 0), the exception propagates out of the game-over block instead of
being handled, so the failure is fatal to the session. -/
theorem save_failure_crashes :
    game_over_highscore 1 0 false = Except.error ("IOError") := rfl

/-- C5 counterexample: a file containing the text -5 parses as a valid
integer, so load_high_score returns the negative value -5, refuting the
claim that the result is non-negative for every persisted-file state. -/
theorem load_high_score_negative :
    load_high_score (some ("-5")) = -5 ∧ load_high_score (some ("-5")) < 0 := by
  constructor
  · rfl
  · decide

/-- C5 amended: load_high_score returns 0 for a missing or unreadable
file and for any content that does not parse as an integer, and returns
the parsed integer, possibly negative, for any content that does. -/
theorem load_high_score_spec :
    load_high_score none = 0 ∧
    (∀ s, parse_py_int s = none → load_high_score (some s) = 0) ∧
    (∀ s n, parse_py_int s = some n → load_high_score (some s) = n) := by
  refine ⟨rfl, fun s hs => ?_, fun s n hs => ?_⟩
  · simp [load_high_score, hs]
  · simp [load_high_score, hs]

/-- C5 amended witness: a malformed file yields 0, a negative integer
file yields its value. -/
theorem load_high_score_spec_witness :
    load_high_score (some ("abc")) = 0 ∧ load_high_score (some ("-5")) = -5 :=
  ⟨load_high_score_spec.2.1 ("abc") (by decide),
   load_high_score_spec.2.2 ("-5") (-5) (by decide)⟩

/-- C6: a direction command equal to the exact opposite of the stored
direction never changes the stored direction. -/
theorem reversal_never_changes_direction (s : GameState) :
    (process_key s (dir_key s.direction.opposite)).direction = s.direction := by
  cases hd : s.direction <;> simp [Dir.opposite, dir_key, process_key, hd]

/-- C8: across a tick the in-memory high score never decreases; on the
tick that transitions to GameOver, the high score is rewritten to the
score and save_high_score is called exactly when the score strictly
exceeds it, and on a tick that stays Running the high score is untouched
and nothing is saved. -/
theorem tick_highscore_update_iff (s : GameState) (now : Int) (fd pd : List Cell)
    (s' : GameState) (sv : Bool) (c : Cell) (tl : List Cell)
    (hbody : s.snake_body = c :: tl) (hrun : s.status = Status.Running)
    (h : tick s now fd pd = some (s', sv)) :
    s.high_score ≤ s'.high_score ∧
    (s'.status = Status.GameOver →
       ((sv = true ↔ (s'.score : Int) > s.high_score) ∧
        (s'.high_score ≠ s.high_score ↔ (s'.score : Int) > s.high_score) ∧
        ((s'.score : Int) > s.high_score → s'.high_score = (s'.score : Int)))) ∧
    (s'.status = Status.Running → s'.high_score = s.high_score ∧ sv = false) := by
  have key : (s'.status = if check_collision s'.snake_body = true
                 then Status.GameOver else s.status) ∧
      (s'.high_score = if check_collision s'.snake_body = true ∧ (s'.score : Int) > s.high_score
         then (s'.score : Int) else s.high_score) ∧
      (sv = true ↔ (check_collision s'.snake_body = true ∧ (s'.score : Int) > s.high_score)) := by
    by_cases heat : next_head c s.direction = s.food_pos
    · obtain ⟨-, -, -, h4, h5, h6⟩ := tick_cases_eat s now fd pd c tl hbody s' sv h heat
      exact ⟨h4, h5, h6⟩
    · obtain ⟨-, -, -, h4, h5, h6⟩ := tick_cases_noeat s now fd pd c tl hbody s' sv h heat
      exact ⟨h4, h5, h6⟩
  obtain ⟨hst, hhs, hsv⟩ := key
  rw [hrun] at hst
  by_cases hcol : check_collision s'.snake_body = true
  · rw [if_pos hcol] at hst
    by_cases hgt : (s'.score : Int) > s.high_score
    · rw [if_pos ⟨hcol, hgt⟩] at hhs
      refine ⟨by rw [hhs]; omega, fun _ => ⟨?_, ?_, fun _ => hhs⟩,
              fun hr => absurd (hst.symm.trans hr) (by decide)⟩
      · constructor
        · intro _
          exact hgt
        · intro _
          exact hsv.mpr ⟨hcol, hgt⟩
      · constructor
        · intro _
          exact hgt
        · intro _
          rw [hhs]
          omega
    · have hcond : ¬(check_collision s'.snake_body = true ∧ (s'.score : Int) > s.high_score) :=
        fun hc => hgt hc.2
      rw [if_neg hcond] at hhs
      refine ⟨le_of_eq hhs.symm, fun _ => ⟨?_, ?_, fun hgt2 => absurd hgt2 hgt⟩,
              fun hr => absurd (hst.symm.trans hr) (by decide)⟩
      · constructor
        · intro hsvt
          exact absurd (hsv.mp hsvt) hcond
        · intro hgt2
          exact absurd hgt2 hgt
      · constructor
        · intro hne
          exact absurd hhs hne
        · intro hgt2
          exact absurd hgt2 hgt
  · rw [if_neg hcol] at hst
    have hcond : ¬(check_collision s'.snake_body = true ∧ (s'.score : Int) > s.high_score) :=
      fun hc => hcol hc.1
    rw [if_neg hcond] at hhs
    refine ⟨le_of_eq hhs.symm, fun hgo => absurd (hst.symm.trans hgo) (by decide),
            fun _ => ⟨hhs, ?_⟩⟩
    cases hsvval : sv with
    | false => rfl
    | true => exact absurd (hsv.mp hsvval).1 hcol

/-- C8 witness: the wall-collision tick of ex_wall ends the session,
saves, and raises the high score from 3 to the score 4. -/
theorem tick_highscore_update_iff_witness :
    ex_wall.high_score ≤ ex_wall_post.high_score ∧
    (ex_wall_post.status = Status.GameOver →
       ((true = true ↔ (ex_wall_post.score : Int) > ex_wall.high_score) ∧
        (ex_wall_post.high_score ≠ ex_wall.high_score ↔
           (ex_wall_post.score : Int) > ex_wall.high_score) ∧
        ((ex_wall_post.score : Int) > ex_wall.high_score →
           ex_wall_post.high_score = (ex_wall_post.score : Int)))) ∧
    (ex_wall_post.status = Status.Running →
       ex_wall_post.high_score = ex_wall.high_score ∧ true = false) :=
  tick_highscore_update_iff ex_wall 0 [] [] ex_wall_post true (39, 15) [(38, 15)]
    rfl rfl (by decide)

/-- C9: the SPACE key flips exactly the paused flag; while paused, any
run of frames whose event batches contain no SPACE leaves the whole
state (snake, food, power-up, score, status and all) unchanged; and the
unpause command is still accepted while paused. -/
theorem pause_freezes (s : GameState) :
    process_key s Key.SPACE = { s with paused := !s.paused } ∧
    (∀ inputs : List FrameInput, s.paused = true →
       (∀ i ∈ inputs, Key.SPACE ∉ i.keys) → run_frames s inputs = some s) ∧
    (s.paused = true → (process_key s Key.SPACE).paused = false) := by
  refine ⟨rfl, fun inputs hp hks => run_frames_paused s inputs hp hks, fun hp => ?_⟩
  simp [process_key, hp]

/-- C9 witness: a paused session survives a frame with an arrow-key
batch unchanged, and SPACE unpauses it. -/
theorem pause_freezes_witness :
    process_key ex_paused Key.SPACE = { ex_paused with paused := !ex_paused.paused } ∧
    run_frames ex_paused [⟨[Key.UP], 0, [], []⟩] = some ex_paused ∧
    (process_key ex_paused Key.SPACE).paused = false :=
  ⟨(pause_freezes ex_paused).1,
   (pause_freezes ex_paused).2.1 [⟨[Key.UP], 0, [], []⟩] rfl (by decide),
   (pause_freezes ex_paused).2.2 rfl⟩

/-- C10: commands of one batch are validated against the stored
direction as already updated by earlier commands of the batch: with the
stored direction RIGHT a lone LEFT is rejected, yet the batch UP then
LEFT ends with stored direction LEFT, the exact opposite of the
direction the snake last moved. -/
theorem batch_allows_reversal (s : GameState) (hp : s.paused = false)
    (hd : s.direction = Dir.RIGHT) :
    (process_events s [Key.LEFT]).direction = s.direction ∧
    (process_events s [Key.UP, Key.LEFT]).direction = Dir.LEFT ∧
    Dir.LEFT = Dir.RIGHT.opposite := by
  refine ⟨?_, ?_, rfl⟩
  · simp [process_events, process_key, hp, hd]
  · simp [process_events, process_key, hp, hd]

/-- C10 witness: the two-command batch on the running state ex_eat
reverses the direction that a single command could not. -/
theorem batch_allows_reversal_witness :
    (process_events ex_eat [Key.LEFT]).direction = ex_eat.direction ∧
    (process_events ex_eat [Key.UP, Key.LEFT]).direction = Dir.LEFT ∧
    Dir.LEFT = Dir.RIGHT.opposite :=
  batch_allows_reversal ex_eat rfl rfl

end SnakeGame